import Mathlib

/-!
Verification development for the `runpod-comfy-flux-ip` repository.

The repository has three Python source files:
* `flux_double_stream_patch.py` — wraps `DoubleStreamBlock.forward` so that
  unexpected keyword arguments are dropped instead of raising `TypeError`.
* `handler.py` — the RunPod serverless dispatcher with its action handlers.
* `sitecustomize.py` — interpreter bootstrap (side effects only).

This file shallowly embeds the relevant functions.  Python dicts carrying
JSON data are embedded as association lists, machine floats used only as
polling budgets are embedded as integers, and effectful primitives
(HTTP requests, filesystem access, wall-clock time) are supplied by an
explicit environment record whose fields give the outcome of each call.
Python exceptions are embedded as `Except String`.
-/

/-! ## Keyword filtering from `flux_double_stream_patch.py`

`patched_forward` (lines 68–101) filters the incoming `**kwargs` before
delegating to the original forward function.  Keyword argument dicts are
embedded as ordered association lists `List (String × α)`; `dict.pop`
inside a `for key in list(kwargs.keys())` loop is an order-preserving
filter. -/

/-- The deny list applied when the original accepts `**kwargs`
(source line 89: `("attn_mask", "attention_mask", "transformer_options")`). -/
def badKeysVarKw : List String := ["attn_mask", "attention_mask", "transformer_options"]

/-- The keys stripped unconditionally at the end of the wrapper
(source line 97: `("attn_mask", "attention_mask")`). -/
def badKeysAlways : List String := ["attn_mask", "attention_mask"]

/-- The kwargs filtering performed by `patched_forward` (lines 82–99):
if the original does not accept `**kwargs`, drop every key not in
`allowed_kwargs`; otherwise drop the fixed deny list; then, in either
case, strip `attn_mask` and `attention_mask` once more. -/
def filterIncomingKwargs (has_var_kw : Bool) (allowed_kwargs : List String)
    (kwargs : List (String × α)) : List (String × α) :=
  let kwargs1 :=
    if !has_var_kw then
      kwargs.filter (fun kv => allowed_kwargs.contains kv.1)
    else
      kwargs.filter (fun kv => !badKeysVarKw.contains kv.1)
  kwargs1.filter (fun kv => !badKeysAlways.contains kv.1)

/-! ## Module patch state from `flux_double_stream_patch.py`

`_patch_module` (lines 33–110) is embedded as a state transformer on a
module record.  The `PATCH_FLAG` attribute set on the wrapper function is
the `patchFlag` field; `wrapDepth` counts how many wrapper layers have
been installed around the pristine forward function. -/

/-- A forward-function object: whether the `PATCH_FLAG` marker attribute is
set on it, and how many times it has been wrapped. -/
structure Forward where
  patchFlag : Bool
  wrapDepth : Nat
deriving DecidableEq

/-- A loaded Python module as far as the patch is concerned: its
`__name__`, whether it defines `DoubleStreamBlock`, and the current
`DoubleStreamBlock.forward` object. -/
structure PyModule where
  name : String
  hasDoubleStreamBlock : Bool
  forwardFn : Forward
deriving DecidableEq

/-- `_patch_module` (lines 33–110): returns the updated module and whether
a new patch was applied.  Missing `DoubleStreamBlock` (lines 40–50) and an
already-set `PATCH_FLAG` (lines 52–58) both return `False` without
touching the module; otherwise the forward is replaced by a wrapper
carrying the flag (lines 103–104). -/
def _patch_module (m : PyModule) : PyModule × Bool :=
  if !m.hasDoubleStreamBlock then (m, false)
  else if m.forwardFn.patchFlag then (m, false)
  else ({ m with forwardFn := { patchFlag := true, wrapDepth := m.forwardFn.wrapDepth + 1 } },
        true)

/-- Bool test for `needle` being a contiguous prefix of `hay`. -/
def charsStart (needle hay : List Char) : Bool :=
  match needle, hay with
  | [], _ => true
  | _ :: _, [] => false
  | a :: as, b :: bs => a == b && charsStart as bs

/-- Bool test for `needle` occurring contiguously inside `hay`. -/
def charsSub (needle hay : List Char) : Bool :=
  match hay with
  | [] => needle.isEmpty
  | _ :: t => charsStart needle hay || charsSub needle t

/-- Python `"flux.model" in name` (line 140): substring test. -/
def fluxNameMatch (name : String) : Bool :=
  charsSub "flux.model".toList name.toList

/-- Phase 1 of `_apply_patch_all` (lines 123–132): `import
comfy.ldm.flux.model` then `_patch_module` it.  The import is modelled as
a lookup into the loaded-module table; the first module whose name equals
the target is patched in place (Python module tables have unique keys).
An absent module means the import fails, which the source catches and
counts as zero. -/
def patchNamed (target : String) : List PyModule → List PyModule × Nat
  | [] => ([], 0)
  | m :: rest =>
    if m.name = target then
      ((_patch_module m).1 :: rest, if (_patch_module m).2 then 1 else 0)
    else
      (m :: (patchNamed target rest).1, (patchNamed target rest).2)

/-- Phase 2 of `_apply_patch_all` (lines 137–148): walk `sys.modules`,
and for every module whose name contains `"flux.model"` and that has a
`DoubleStreamBlock` attribute, apply `_patch_module`, counting the
newly-patched ones. -/
def patchLoop : List PyModule → List PyModule × Nat
  | [] => ([], 0)
  | m :: rest =>
    let p :=
      if fluxNameMatch m.name && m.hasDoubleStreamBlock then _patch_module m
      else (m, false)
    (p.1 :: (patchLoop rest).1, (if p.2 then 1 else 0) + (patchLoop rest).2)

/-- `_apply_patch_all` (lines 113–151): patch the canonical
`comfy.ldm.flux.model` first, then every other loaded `flux.model`
module, returning the updated module table and the count of modules
actually patched. -/
def _apply_patch_all (mods : List PyModule) : List PyModule × Nat :=
  let r1 := patchNamed "comfy.ldm.flux.model" mods
  let r2 := patchLoop r1.1
  (r2.1, r1.2 + r2.2)

/-! ### Lemmas about the patch -/

theorem patch_module_flagged (m : PyModule) (h : m.forwardFn.patchFlag = true) :
    _patch_module m = (m, false) := by
  unfold _patch_module
  by_cases hd : m.hasDoubleStreamBlock <;> simp [hd, h]

theorem patch_module_noDSB (m : PyModule) (h : m.hasDoubleStreamBlock = false) :
    _patch_module m = (m, false) := by
  unfold _patch_module
  simp [h]

/-- A module is settled when, whenever the bulk-patch loop would select it,
its forward already carries the marker flag. -/
def modSettled (m : PyModule) : Prop :=
  (fluxNameMatch m.name && m.hasDoubleStreamBlock) = true →
    m.forwardFn.patchFlag = true

theorem patch_module_settled (m : PyModule) (h : modSettled m) :
    (fluxNameMatch m.name && m.hasDoubleStreamBlock) = true →
    _patch_module m = (m, false) := by
  intro hc
  exact patch_module_flagged m (h hc)

theorem patchLoop_settles (mods : List PyModule) :
    ∀ m2 ∈ (patchLoop mods).1, modSettled m2 := by
  induction mods with
  | nil => intro m2 hm; simp [patchLoop] at hm
  | cons m rest ih =>
    intro m2 hm
    simp only [patchLoop, List.mem_cons] at hm
    rcases hm with hm | hm
    · subst hm
      by_cases hc : (fluxNameMatch m.name && m.hasDoubleStreamBlock) = true
      · rw [if_pos hc]
        unfold modSettled
        intro _
        have hparts := hc
        rw [Bool.and_eq_true] at hparts
        obtain ⟨_, hdsb⟩ := hparts
        by_cases hf : m.forwardFn.patchFlag = true
        · rw [patch_module_flagged m hf]; exact hf
        · simp only [Bool.not_eq_true] at hf
          unfold _patch_module
          simp [hdsb, hf]
      · rw [if_neg hc]
        intro hcc
        exact absurd hcc hc
    · exact ih m2 hm

theorem patchLoop_of_settled (mods : List PyModule)
    (h : ∀ m ∈ mods, modSettled m) : patchLoop mods = (mods, 0) := by
  induction mods with
  | nil => rfl
  | cons m rest ih =>
    have hrest : patchLoop rest = (rest, 0) :=
      ih (fun x hx => h x (List.mem_cons_of_mem m hx))
    unfold patchLoop
    by_cases hc : (fluxNameMatch m.name && m.hasDoubleStreamBlock) = true
    · rw [if_pos hc, patch_module_settled m (h m (List.mem_cons_self m rest)) hc,
        hrest]
      simp
    · rw [if_neg hc, hrest]
      simp

theorem patchNamed_of_settled (target : String) (mods : List PyModule)
    (htarget : fluxNameMatch target = true)
    (h : ∀ m ∈ mods, modSettled m) : patchNamed target mods = (mods, 0) := by
  induction mods with
  | nil => rfl
  | cons m rest ih =>
    have hrest : patchNamed target rest = (rest, 0) :=
      ih (fun x hx => h x (List.mem_cons_of_mem m hx))
    unfold patchNamed
    by_cases hn : m.name = target
    · have hset := h m (List.mem_cons_self m rest)
      by_cases hdsb : m.hasDoubleStreamBlock = true
      · have hflag : m.forwardFn.patchFlag = true := by
          apply hset
          rw [hn, htarget, hdsb]
          rfl
        rw [if_pos hn, patch_module_flagged m hflag]
        simp
      · simp only [Bool.not_eq_true] at hdsb
        rw [if_pos hn, patch_module_noDSB m hdsb]
        simp
    · rw [if_neg hn, hrest]

theorem apply_patch_all_settles (mods : List PyModule) :
    ∀ m2 ∈ (_apply_patch_all mods).1, modSettled m2 := by
  intro m2 hm
  exact patchLoop_settles (patchNamed "comfy.ldm.flux.model" mods).1 m2 hm

/-! ### Claims C4, C5, C6 -/

/-- C4 counterexample: the claim says every keyword in the accepted set is
preserved.  Take an original forward that declares `attn_mask` among its
parameters (no `**kwargs`) and call it with `attn_mask`: the wrapper's
final strip (source lines 96–99) drops it anyway, so the delegated
kwargs are not the incoming kwargs restricted to the accepted set. -/
theorem flux_kwarg_filter_no_varkw_cex :
    filterIncomingKwargs false ["img", "txt", "attn_mask"]
        [("img", (0 : Nat)), ("attn_mask", 1)]
      ≠ [("img", (0 : Nat)), ("attn_mask", 1)] := by decide

/-- C4 (amended): for an original forward without `**kwargs`, the wrapper
delegates with exactly the incoming keywords that are in the accepted set
*and* are not `attn_mask`/`attention_mask`; those two keys are dropped
even when the accepted set contains them. -/
theorem flux_kwarg_filter_no_varkw_amended (allowed : List String)
    (kwargs : List (String × α)) :
    filterIncomingKwargs false allowed kwargs
      = kwargs.filter (fun kv =>
          allowed.contains kv.1 &&
          !(kv.1 == "attn_mask" || kv.1 == "attention_mask")) := by
  unfold filterIncomingKwargs
  rw [if_pos (by rfl), List.filter_filter]
  apply List.filter_congr
  intro kv _
  unfold badKeysAlways
  cases h1 : kv.1 == "attn_mask" <;> cases h2 : kv.1 == "attention_mask" <;>
    cases hA : allowed.contains kv.1 <;>
      simp_all [List.contains_cons]

/-- C5 counterexample: the claim says only `attn_mask` and
`transformer_options` are removed and all other keys are preserved;
but a call whose kwargs include `attention_mask` has that key removed
too (source line 89). -/
theorem flux_kwarg_filter_varkw_cex :
    filterIncomingKwargs true []
        [("attn_mask", (0 : Nat)), ("transformer_options", 1),
         ("attention_mask", 2), ("vec", 3)]
      ≠ [("attention_mask", (2 : Nat)), ("vec", 3)] := by decide

/-- C5 (amended): for an original forward with `**kwargs`, the wrapper
delegates with `attn_mask`, `attention_mask` and `transformer_options`
removed and every other incoming keyword preserved unchanged. -/
theorem flux_kwarg_filter_varkw_amended (allowed : List String)
    (kwargs : List (String × α)) :
    filterIncomingKwargs true allowed kwargs
      = kwargs.filter (fun kv =>
          !(kv.1 == "attn_mask" || kv.1 == "attention_mask" ||
            kv.1 == "transformer_options")) := by
  unfold filterIncomingKwargs
  rw [if_neg (by simp), List.filter_filter]
  apply List.filter_congr
  intro kv _
  unfold badKeysAlways badKeysVarKw
  cases h1 : kv.1 == "attn_mask" <;> cases h2 : kv.1 == "attention_mask" <;>
    cases h3 : kv.1 == "transformer_options" <;>
      simp_all [List.contains_cons]

/-- C6: patching is idempotent.  For a module that defines
`DoubleStreamBlock` and is not yet patched: the first `_patch_module`
sets the marker flag, adds exactly one wrapper layer, and reports a new
patch; every subsequent attempt (any number of iterations) leaves the
module unchanged and reports no new patch; and running the bulk
`_apply_patch_all` a second time on any module table re-patches nothing
and counts zero newly-patched modules. -/
theorem flux_patch_idempotent (m : PyModule) (mods : List PyModule)
    (hdsb : m.hasDoubleStreamBlock = true)
    (hflag : m.forwardFn.patchFlag = false) :
    ((_patch_module m).1.forwardFn.patchFlag = true ∧
     (_patch_module m).1.forwardFn.wrapDepth = m.forwardFn.wrapDepth + 1 ∧
     (_patch_module m).2 = true ∧
     (∀ n : Nat, (fun x => (_patch_module x).1)^[n + 1] m = (_patch_module m).1) ∧
     _patch_module ((_patch_module m).1) = ((_patch_module m).1, false)) ∧
    _apply_patch_all ((_apply_patch_all mods).1)
      = ((_apply_patch_all mods).1, 0) := by
  have hpm : _patch_module m
      = ({ m with forwardFn :=
            { patchFlag := true, wrapDepth := m.forwardFn.wrapDepth + 1 } },
         true) := by
    unfold _patch_module
    simp [hdsb, hflag]
  have hflag1 : (_patch_module m).1.forwardFn.patchFlag = true := by
    rw [hpm]
  have hagain : _patch_module ((_patch_module m).1) = ((_patch_module m).1, false) :=
    patch_module_flagged _ hflag1
  constructor
  · refine ⟨hflag1, by rw [hpm], by rw [hpm], ?_, hagain⟩
    intro n
    rw [Function.iterate_succ_apply]
    exact Function.iterate_fixed (by rw [hagain]) n
  · have hsettled := apply_patch_all_settles mods
    generalize hS : (_apply_patch_all mods).1 = S at hsettled ⊢
    unfold _apply_patch_all
    rw [patchNamed_of_settled _ _ (by decide) hsettled]
    simp [patchLoop_of_settled S hsettled]

/-- The concrete module used to witness `flux_patch_idempotent`. -/
def pmWitness : PyModule :=
  { name := "comfy.ldm.flux.model", hasDoubleStreamBlock := true,
    forwardFn := { patchFlag := false, wrapDepth := 0 } }

theorem flux_patch_idempotent_witness :
    (_patch_module pmWitness).1.forwardFn.patchFlag = true ∧
    _apply_patch_all ((_apply_patch_all [pmWitness]).1)
      = ((_apply_patch_all [pmWitness]).1, 0) :=
  ⟨(flux_patch_idempotent pmWitness [pmWitness] rfl rfl).1.1,
   (flux_patch_idempotent pmWitness [pmWitness] rfl rfl).2⟩

/-! ## Process supervisor from `handler.py` (lines 70–135)

The module-global `_comfy_process` handle and the readiness loop are
embedded with discrete one-second time: `health t` is the outcome of the
`/system_stats` probe issued after `t` sleeps of the polling loop. -/

/-- A spawned subprocess handle: `alive` is `poll() is None`. -/
structure Proc where
  alive : Bool
deriving DecidableEq

/-- The process-global supervisor state: the optional `_comfy_process`. -/
structure SupState where
  comfyProcess : Option Proc
deriving DecidableEq

/-- `_start_comfy_if_needed` (lines 73–104): returns immediately when a
handle is held and `poll()` reports the process still running (lines
80–81); otherwise spawns a subprocess and stores the new handle (lines
96–102).  The Bool records whether a spawn happened. -/
def _start_comfy_if_needed (s : SupState) : SupState × Bool :=
  match s.comfyProcess with
  | some p =>
    if p.alive then (s, false)
    else ({ comfyProcess := some { alive := true } }, true)
  | none => ({ comfyProcess := some { alive := true } }, true)

/-- The loop of `_wait_for_comfy_ready` (lines 114–127): probe, return on
success, raise when the elapsed time exceeds `timeout`, else sleep one
second and retry.  `fuel` bounds the recursion; callers pass `timeout + 2`
which the raise branch makes sufficient.  On success the returned value
is the elapsed time at which the successful probe was issued. -/
def waitReadyAux (health : Nat → Bool) (timeout : Nat) : Nat → Nat → Except String Nat
  | t, fuel + 1 =>
    if health t then .ok t
    else if timeout < t then .error "Timed out waiting for ComfyUI"
    else waitReadyAux health timeout (t + 1) fuel
  | _, 0 => .error "Timed out waiting for ComfyUI"

/-- `_wait_for_comfy_ready` (lines 107–127) with its default
`timeout=60.0` generalised to any natural timeout. -/
def _wait_for_comfy_ready (health : Nat → Bool) (timeout : Nat) : Except String Nat :=
  waitReadyAux health timeout 0 (timeout + 2)

/-- `_ensure_comfy_ready` (lines 130–135): `_start_comfy_if_needed`
followed by `_wait_for_comfy_ready`. -/
def _ensure_comfy_ready (s : SupState) (health : Nat → Bool) (timeout : Nat) :
    (SupState × Bool) × Except String Nat :=
  (_start_comfy_if_needed s, _wait_for_comfy_ready health timeout)

/-- Whether a live subprocess handle is held
(`_comfy_process is not None and _comfy_process.poll() is None`). -/
def liveHandle (s : SupState) : Bool :=
  match s.comfyProcess with
  | some p => p.alive
  | none => false

theorem waitReadyAux_ok (health : Nat → Bool) (timeout : Nat) :
    ∀ fuel t0 t, t0 ≤ t → t ≤ timeout → health t = true → t - t0 < fuel →
      ∃ u, t0 ≤ u ∧ u ≤ t ∧ waitReadyAux health timeout t0 fuel = .ok u := by
  intro fuel
  induction fuel with
  | zero => intro t0 t _ _ _ hf; omega
  | succ f ih =>
    intro t0 t h0 h1 h2 hf
    by_cases hh : health t0 = true
    · refine ⟨t0, le_refl t0, h0, ?_⟩
      unfold waitReadyAux
      rw [if_pos hh]
    · have ht0 : t0 ≠ t := fun he => hh (he ▸ h2)
      have hnt : ¬ timeout < t0 := by omega
      obtain ⟨u, hu1, hu2, hu3⟩ := ih (t0 + 1) t (by omega) h1 h2 (by omega)
      refine ⟨u, by omega, hu2, ?_⟩
      unfold waitReadyAux
      rw [if_neg hh, if_neg hnt]
      exact hu3

theorem waitReadyAux_allFail (health : Nat → Bool) (timeout : Nat)
    (hall : ∀ n, health n = false) :
    ∀ fuel t0, waitReadyAux health timeout t0 fuel
      = .error "Timed out waiting for ComfyUI" := by
  intro fuel
  induction fuel with
  | zero => intro t0; rfl
  | succ f ih =>
    intro t0
    unfold waitReadyAux
    rw [if_neg (by simp [hall t0])]
    by_cases ht : timeout < t0
    · rw [if_pos ht]
    · rw [if_neg ht]
      exact ih (t0 + 1)

/-! ### Claims C8, C9 -/

/-- C8 counterexample: with no subprocess handle held but a health
endpoint that responds successfully at the very first probe,
`_ensure_comfy_ready` spawns anyway — the spawn decision (lines 80–81)
consults only the process handle, never the health endpoint, so "spawns
only when the health endpoint does not respond successfully" is false. -/
theorem ensure_ready_spawn_cex :
    (fun _ => true : Nat → Bool) 0 = true ∧
    (_ensure_comfy_ready { comfyProcess := none } (fun _ => true) 60).1.2 = true :=
  ⟨rfl, rfl⟩

/-- C8 (amended): `_ensure_comfy_ready` spawns exactly when no live
subprocess handle is held, regardless of health; and when a live handle
is held and the health endpoint responds successfully at the first
probe, it spawns nothing, leaves the state unchanged and succeeds at
elapsed time zero (a single probe). -/
theorem ensure_ready_spawn_amended (s : SupState) (health : Nat → Bool)
    (timeout : Nat) :
    ((_ensure_comfy_ready s health timeout).1.2 = !liveHandle s) ∧
    (liveHandle s = true → health 0 = true →
      _ensure_comfy_ready s health timeout = ((s, false), .ok 0)) := by
  constructor
  · unfold _ensure_comfy_ready _start_comfy_if_needed liveHandle
    match s with
    | { comfyProcess := none } => rfl
    | { comfyProcess := some p } => cases hp : p.alive <;> simp [hp]
  · intro hlive h0
    unfold _ensure_comfy_ready _start_comfy_if_needed _wait_for_comfy_ready
      waitReadyAux
    unfold liveHandle at hlive
    match s with
    | { comfyProcess := none } => exact absurd hlive (by simp)
    | { comfyProcess := some p } =>
      simp only at hlive
      simp [hlive, h0]

/-- Witness for `ensure_ready_spawn_amended`: a live handle with an
always-healthy endpoint yields no spawn and immediate success. -/
theorem ensure_ready_spawn_amended_witness :
    _ensure_comfy_ready { comfyProcess := some { alive := true } }
        (fun _ => true) 60
      = (({ comfyProcess := some { alive := true } }, false), .ok 0) :=
  (ensure_ready_spawn_amended { comfyProcess := some { alive := true } }
    (fun _ => true) 60).2 rfl rfl

/-- C9: the readiness wait returns as soon as the health endpoint starts
answering — if the probe at elapsed time `t < timeout` succeeds, the loop
returns success at some elapsed time `u ≤ t` (so by `t` plus one poll
interval in wall-clock terms) instead of waiting out the full budget; and
if no probe ever succeeds, the loop terminates by raising the timeout
error once the budget elapses. -/
theorem wait_ready_polling (health : Nat → Bool) (timeout : Nat) :
    (∀ t, t < timeout → health t = true →
      ∃ u, u ≤ t ∧ _wait_for_comfy_ready health timeout = .ok u) ∧
    ((∀ n, health n = false) →
      _wait_for_comfy_ready health timeout
        = .error "Timed out waiting for ComfyUI") := by
  constructor
  · intro t ht hh
    obtain ⟨u, _, hu2, hu3⟩ := waitReadyAux_ok health timeout (timeout + 2) 0 t
      (Nat.zero_le t) (Nat.le_of_lt ht) hh (by omega)
    exact ⟨u, hu2, hu3⟩
  · intro hall
    exact waitReadyAux_allFail health timeout hall (timeout + 2) 0

/-- Witness for `wait_ready_polling`: an endpoint that starts answering
after two poll ticks is detected no later than tick two. -/
theorem wait_ready_polling_witness :
    ∃ u, u ≤ 2 ∧ _wait_for_comfy_ready (fun n => decide (2 ≤ n)) 60 = .ok u :=
  (wait_ready_polling (fun n => decide (2 ≤ n)) 60).1 2 (by decide) (by decide)

/-! ## JSON values and Python dict/truthiness helpers

`handler.py` passes JSON-shaped Python values around.  They are embedded
as the inductive `J`; JSON numbers are embedded as integers (the handlers
use numbers only as counts and polling budgets). -/

inductive J where
  | null : J
  | bool : Bool → J
  | num : Int → J
  | str : String → J
  | arr : List J → J
  | obj : List (String × J) → J

/-- Python truthiness of a JSON value. -/
def jTruthy : J → Bool
  | J.null => false
  | J.bool b => b
  | J.num n => !(n == 0)
  | J.str s => !(s == "")
  | J.arr l => !l.isEmpty
  | J.obj l => !l.isEmpty

/-- Python `a or b`. -/
def pyOr (a b : J) : J := if jTruthy a then a else b

/-- Key lookup on an object; `none` on non-objects or missing keys. -/
def J.get? : J → String → Option J
  | J.obj kvs, k => (kvs.find? (fun kv => kv.fst == k)).map (fun kv => kv.snd)
  | _, _ => none

/-- Python `d.get(k)` on a known dict: `None` when absent. -/
def pyGet (j : J) (k : String) : J := (j.get? k).getD J.null

/-- Python `d.get(k, default)` on a known dict. -/
def pyGetD (j : J) (k : String) (d : J) : J := (j.get? k).getD d

/-- Whether `k in d`. -/
def hasKey (j : J) (k : String) : Bool := (j.get? k).isSome

/-- Whether the value is a dict. -/
def isObj : J → Bool
  | J.obj _ => true
  | _ => false

/-- The key list of a dict (empty for non-objects). -/
def jKeys : J → List String
  | J.obj kvs => kvs.map (fun kv => kv.1)
  | _ => []

/-- Python `x.get(k)` on an arbitrary value: raises `AttributeError`
unless `x` is a dict. -/
def dictGet (j : J) (k : String) : Except String J :=
  match j with
  | J.obj _ => .ok (pyGet j k)
  | _ => .error "AttributeError: object has no attribute get"

/-- Crude text rendering used where the source interpolates a value into
an f-string message or URL. -/
def jText : J → String
  | J.null => "None"
  | J.bool true => "True"
  | J.bool false => "False"
  | J.num n => toString n
  | J.str s => s
  | J.arr _ => "[...]"
  | J.obj _ => "\x7b...\x7d"

/-- Python `float(x)` on JSON values, with numbers embedded as integers:
numeric strings parse, other strings and non-numbers raise. -/
def pyFloat (j : J) : Except String Int :=
  match j with
  | J.num n => .ok n
  | J.bool b => .ok (if b then 1 else 0)
  | J.str s =>
    match s.toInt? with
    | some n => .ok n
    | none => .error ("could not convert string to float: " ++ s)
  | _ => .error "float() argument must be a string or a real number"

/-- Python `int(x)` on JSON values, same embedding as `pyFloat`. -/
def pyInt (j : J) : Except String Int :=
  match j with
  | J.num n => .ok n
  | J.bool b => .ok (if b then 1 else 0)
  | J.str s =>
    match s.toInt? with
    | some n => .ok n
    | none => .error ("invalid literal for int() with base 10: " ++ s)
  | _ => .error "int() argument must be a string or a number"

/-- `pathlib.Path(x)` on a payload value: accepts strings, raises
`TypeError` otherwise. -/
def asPathStr (j : J) : Except String String :=
  match j with
  | J.str s => .ok s
  | _ => .error "TypeError: argument should be a str or an os.PathLike object"

/-! ## Response envelopes (`_ok` / `_fail`, lines 142–148)

Envelopes are built as raw JSON objects so the envelope invariant is a
property of the constructed value, not of a Lean type. -/

/-- `_ok` (lines 142–143). -/
def _ok (data : J) : J := J.obj [("ok", J.bool true), ("data", data)]

/-- `_fail` (lines 146–148); every call site passes only the message, so
the `error=None` keyword default always resolves to the message. -/
def _fail (message : String) : J :=
  J.obj [("ok", J.bool false), ("error", J.str message)]

/-- The envelope invariant: an `ok` field holding a boolean, and never
both a `data` and an `error` member. -/
def isEnvelope (j : J) : Bool :=
  (match j.get? "ok" with
   | some (J.bool _) => true
   | _ => false) &&
  !(hasKey j "data" && hasKey j "error")

theorem envelope_ok (d : J) : isEnvelope (_ok d) = true := rfl

theorem envelope_fail (m : String) : isEnvelope (_fail m) = true := rfl

/-! ## Configuration constants (lines 16–47, environment defaults) -/

def INPUT_DIR : String := "/runpod-volume/ComfyUI/input"
def OUTPUT_DIR : String := "/runpod-volume/ComfyUI/output"
def COMFY_LOG_PATH : String := "/tmp/comfy.log"

/-- `OUTPUT_SCAN_DIRS` (lines 37–47) with env defaults:
`dict.fromkeys` deduplicates the repeated default output dir. -/
def OUTPUT_SCAN_DIRS : List String :=
  ["/runpod-volume/ComfyUI/output", "/comfyui/output", "/comfyui/user/output",
   "/workspace/ComfyUI/output"]

/-! ## Paths

`pathlib` joining and resolution, needed to state where an upload lands
relative to the input root. -/

/-- `pathlib.Path(base) / fname`: an absolute right operand replaces the
base entirely. -/
def pathJoin (base fname : String) : String :=
  if fname.toList.head? == some '/' then fname else base ++ "/" ++ fname

/-- Split a character list on `/` into segments. -/
def splitSegsAux : List Char → List Char → List String
  | acc, [] => [String.mk acc.reverse]
  | acc, c :: rest =>
    if c = '/' then String.mk acc.reverse :: splitSegsAux [] rest
    else splitSegsAux (c :: acc) rest

/-- Resolve a path string to its list of components, interpreting `.`,
`..` and empty segments. -/
def resolvePath (p : String) : List String :=
  (splitSegsAux [] p.toList).foldl
    (fun acc s =>
      if s = "" || s = "." then acc
      else if s = ".." then acc.dropLast
      else acc ++ [s])
    []

/-- Whether the first segment list starts the second. -/
def segsStart : List String → List String → Bool
  | [], _ => true
  | _ :: _, [] => false
  | a :: as, b :: bs => a == b && segsStart as bs

/-- Whether `p` resolves to a location inside (or equal to) `root`. -/
def withinRoot (root p : String) : Bool :=
  segsStart (resolvePath root) (resolvePath p)

/-! ## Filesystem metadata and output scanning (lines 173–234) -/

/-- One scanned image file: the dict built at lines 194–201. -/
structure FileMeta where
  path : String
  name : String
  mtime : Int
  size : Int
deriving DecidableEq

/-- The JSON descriptor for a scanned file. -/
def fileJson (f : FileMeta) : J :=
  J.obj [("path", J.str f.path), ("name", J.str f.name),
         ("mtime", J.num f.mtime), ("size", J.num f.size)]

/-- Stable insertion into an mtime-ascending list. -/
def insertByMtime (f : FileMeta) : List FileMeta → List FileMeta
  | [] => [f]
  | g :: rest =>
    if f.mtime ≤ g.mtime then f :: g :: rest else g :: insertByMtime f rest

/-- `images.sort(key=lambda x: x["mtime"])` (line 203): a stable
ascending sort by mtime. -/
def sortByMtime (l : List FileMeta) : List FileMeta :=
  l.foldr insertByMtime []

/-! ## The effect environment

Every effectful primitive the handlers call is an oracle field.
`scanSeq k` is the walk result of `_scan_outputs` the `k`-th time the
filesystem is scanned during one invocation (scan 0 is the pre-submission
snapshot in `generate`; scans 1, 2, … are the polls of
`_await_new_outputs`, one poll interval apart). -/

/-- A `requests.Response`: status, `resp.ok`, headers content-type, the
outcome of `resp.json()`, and `resp.text`. -/
structure RespModel where
  respOk : Bool
  statusCode : Int
  contentType : String
  jsonBody : Except String J
  textBody : String

/-- Outcomes of the effectful primitives for one invocation. -/
structure Env where
  ensureReady : Except String Unit
  httpGet : String → Except String RespModel
  httpPost : String → J → Except String RespModel
  download : J → Except String RespModel
  writeBytes : String → Except String Unit
  tailPrimary : String
  altLog : Option (String × String)
  dirExists : String → Bool
  globPngs : String → List FileMeta
  scanSeq : Nat → List FileMeta

/-- `resp.raise_for_status()`. -/
def raiseForStatus (r : RespModel) : Except String Unit :=
  if r.respOk then .ok ()
  else .error ("HTTP error " ++ toString r.statusCode)

/-- `_scan_outputs` (lines 173–204) at the `k`-th scan instant: walk
results from the oracle, sorted ascending by mtime. -/
def _scan_outputs (env : Env) (k : Nat) : List FileMeta :=
  sortByMtime (env.scanSeq k)

/-- `{img["path"]: img["mtime"] for img in images}` (lines 220, 556). -/
def toMtimeMap (l : List FileMeta) : List (String × Int) :=
  l.map (fun f => (f.path, f.mtime))

/-- The new-image filter of `_await_new_outputs` (lines 222–226): keep
files absent from `before` or with a strictly larger mtime. -/
def newAgainst (before : List (String × Int)) (all : List FileMeta) : List FileMeta :=
  all.filter (fun img =>
    match before.lookup img.path with
    | none => true
    | some t => decide (t < img.mtime))

/-- The polling loop of `_await_new_outputs` (lines 218–234): scan, return
new files if any, otherwise return empty once the deadline has passed,
else sleep one poll interval and rescan.  `fuel` is the number of sleeps
the wait budget allows; `k` indexes the scan instants. -/
def awaitAux (env : Env) (before : List (String × Int)) :
    Nat → Nat → List FileMeta × List (String × Int)
  | fuel, k =>
    let all := _scan_outputs env k
    let current_map := toMtimeMap all
    let new_images := newAgainst before all
    if new_images.isEmpty then
      match fuel with
      | 0 => ([], current_map)
      | f + 1 => awaitAux env before f (k + 1)
    else (new_images, current_map)

/-- The number of sleeps before `time.time() >= deadline` holds at a scan
instant: polls happen at times `0, poll, 2·poll, …` and the deadline is
`wait` onward. -/
def numPolls (wait poll : Int) : Nat :=
  if poll ≤ 0 then 0 else ((wait + poll - 1) / poll).toNat

/-- `_await_new_outputs` (lines 207–234), starting from scan instant 1
(instant 0 was the caller's pre-submission snapshot). -/
def _await_new_outputs (env : Env) (before : List (String × Int))
    (wait poll : Int) : List FileMeta × List (String × Int) :=
  awaitAux env before (numPolls wait poll) 1

/-! ## Action handlers (lines 261–603)

Handlers whose body can raise outside an internal `try` return
`Except String J` (the `.error` case is the exception propagating to the
dispatcher); the others return `J` directly.  `_handle_upload_input_url`
additionally reports the list of filesystem paths it wrote, and
`_handle_generate` the list of JSON bodies it POSTed to `/prompt`. -/

/-- `_handle_ping` (lines 261–262). -/
def _handle_ping : J := _ok (J.obj [("message", J.str "pong")])

/-- `_handle_about` (lines 265–294). -/
def _handle_about : J :=
  _ok (J.obj
    [("service", J.str "runpod-comfy-flux-ip"),
     ("version", J.str "v13"),
     ("comfy", J.obj
       [("base_url", J.str "http://127.0.0.1:8188"), ("dir", J.str "/comfyui")]),
     ("paths", J.obj
       [("input_dir", J.str INPUT_DIR), ("output_dir", J.str OUTPUT_DIR),
        ("output_scan_dirs", J.arr (OUTPUT_SCAN_DIRS.map J.str)),
        ("comfy_log_path", J.str COMFY_LOG_PATH)]),
     ("features", J.obj
       [("ping", J.bool true), ("preflight", J.bool true),
        ("generate", J.bool true), ("ip_adapter", J.bool true),
        ("history", J.bool true), ("list_outputs", J.bool true),
        ("list_all_outputs", J.bool true), ("dump_comfy_log", J.bool true)])])

/-- The `try` block of `_handle_preflight` (lines 301–305). -/
def preflightTry (env : Env) : Except String J :=
  match env.ensureReady with
  | .error e => .error e
  | .ok _ =>
    match env.httpGet "/system_stats" with
    | .error e => .error e
    | .ok resp =>
      match raiseForStatus resp with
      | .error e => .error e
      | .ok _ => resp.jsonBody

/-- `_handle_preflight` (lines 297–309). -/
def _handle_preflight (env : Env) : J :=
  match preflightTry env with
  | .ok stats => _ok (J.obj [("system_stats", stats)])
  | .error e => _fail ("preflight failed: " ++ e)

/-- The `try` block of `_handle_upload_input_url` (lines 326–332):
download, `raise_for_status`, write the bytes. -/
def uploadTry (env : Env) (url : J) (dest : String) : Except String Unit :=
  match env.download url with
  | .error e => .error e
  | .ok resp =>
    match raiseForStatus resp with
    | .error e => .error e
    | .ok _ => env.writeBytes dest

/-- `_handle_upload_input_url` (lines 312–334).  The destination is
`Path(INPUT_DIR) / filename` with no containment check.  The second
component lists the paths written. -/
def _handle_upload_input_url (env : Env) (body : J) :
    Except String J × List String :=
  let payload := pyOr (pyGet body "payload") (J.obj [])
  let url := pyGet payload "url"
  let filename := pyOr (pyGet payload "filename") (J.str "input.png")
  if !jTruthy url then
    (.ok (_fail "upload_input_url requires payload.url"), [])
  else
    match asPathStr filename with
    | .error e => (.error e, [])
    | .ok fname =>
      let dest := pathJoin INPUT_DIR fname
      match uploadTry env url dest with
      | .ok _ => (.ok (_ok (J.obj [("saved", J.str dest)])), [dest])
      | .error e => (.ok (_fail ("upload_input_url failed: " ++ e)), [])

/-- `_handle_dump_comfy_log` (lines 337–375).  The `int(...)` conversion
(line 346) sits outside any `try` and may raise; the log tailing and the
`comfyui.log` fallback discovery never do. -/
def _handle_dump_comfy_log (env : Env) (body : J) : Except String J :=
  let payload := pyOr (pyGet body "payload") (J.obj [])
  match pyInt (pyOr (pyGet payload "lines") (pyOr (pyGet body "lines") (J.num 400))) with
  | .error e => .error e
  | .ok lines =>
    let tail0 := env.tailPrimary
    let tp :=
      if charsStart "(log file not found".toList tail0.toList then
        match env.altLog with
        | some alt => (alt.2, alt.1)
        | none => (tail0, COMFY_LOG_PATH)
      else (tail0, COMFY_LOG_PATH)
    let tail_lines := tp.1.splitOn "\n"
    let tail2 :=
      if lines < (tail_lines.length : Int) then
        "\n".intercalate
          (if 0 ≤ lines then tail_lines.drop (tail_lines.length - lines.toNat)
           else tail_lines.drop (-lines).toNat)
      else tp.1
    .ok (_ok (J.obj [("log_tail", J.str tail2), ("path", J.str tp.2)]))

/-- The `try` block of `_handle_comfy_get` (lines 390–397): readiness,
GET, and a nested parse attempt falling back to the raw text. -/
def comfyGetTry (env : Env) (path : J) : Except String (RespModel × J) :=
  match env.ensureReady with
  | .error e => .error e
  | .ok _ =>
    match env.httpGet (jText path) with
    | .error e => .error e
    | .ok resp =>
      let parsed :=
        match resp.jsonBody with
        | .ok p => p
        | .error _ => J.str resp.textBody
      .ok (resp, parsed)

/-- `_handle_comfy_get` (lines 378–408). -/
def _handle_comfy_get (env : Env) (body : J) : J :=
  let payload := pyOr (pyGet body "payload") (J.obj [])
  let path := pyGet payload "path"
  if !jTruthy path then _fail "comfy_get requires payload.path"
  else
    match comfyGetTry env path with
    | .error e => _fail ("comfy_get failed: " ++ e)
    | .ok rp =>
      _ok (J.obj [("path", path), ("status_code", J.num rp.1.statusCode),
                  ("content_type", J.str rp.1.contentType), ("body", rp.2)])

/-- The outer `try` block of `_handle_history` (lines 426–468): the GET
attempt (any exception falls through to POST), then the legacy POST. -/
def historyTry (env : Env) (prompt_id : J) : Except String J :=
  match env.ensureReady with
  | .error e => .error e
  | .ok _ =>
    let pid := jText prompt_id
    let viaGet : Option J :=
      match env.httpGet ("/history/" ++ pid) with
      | .error _ => none
      | .ok resp =>
        if resp.respOk then
          match resp.jsonBody with
          | .ok d =>
            some (_ok (J.obj [("prompt_id", prompt_id), ("history", d)]))
          | .error e =>
            some (_ok (J.obj
              [("prompt_id", prompt_id), ("history", J.null),
               ("raw", J.str resp.textBody),
               ("parse_error",
                J.str ("GET /history/" ++ pid ++ " JSON parse failed: " ++ e))]))
        else none
    match viaGet with
    | some r => .ok r
    | none =>
      match env.httpPost "/history" (J.obj [("prompt_id", prompt_id)]) with
      | .error e => .error e
      | .ok resp =>
        if !resp.respOk then
          .ok (_fail ("history POST failed: HTTP " ++ toString resp.statusCode
            ++ " for " ++ pid))
        else
          match resp.jsonBody with
          | .ok d => .ok (_ok (J.obj [("prompt_id", prompt_id), ("history", d)]))
          | .error e =>
            .ok (_ok (J.obj
              [("prompt_id", prompt_id), ("history", J.null),
               ("raw", J.str resp.textBody),
               ("parse_error", J.str ("POST /history JSON parse failed: " ++ e))]))

/-- `_handle_history` (lines 411–471). -/
def _handle_history (env : Env) (body : J) : J :=
  let payload := pyOr (pyGet body "payload") (J.obj [])
  let prompt_id := pyGet payload "prompt_id"
  if !jTruthy prompt_id then _fail "history requires payload.prompt_id"
  else
    match historyTry env prompt_id with
    | .ok r => r
    | .error e => _fail ("history error for " ++ jText prompt_id ++ ": " ++ e)

/-- `_handle_list_outputs` (lines 474–501): `pathlib.Path(path)` raises on
non-string payloads (propagating to the dispatcher); a missing directory
returns a success envelope with an empty image list. -/
def _handle_list_outputs (env : Env) (body : J) : Except String J :=
  let payload := pyOr (pyGet body "payload") (J.obj [])
  let pathJ := pyOr (pyGet payload "path") (J.str OUTPUT_DIR)
  match asPathStr pathJ with
  | .error e => .error e
  | .ok path =>
    if !(env.dirExists path) then
      .ok (_ok (J.obj [("images", J.arr []), ("path", pathJ)]))
    else
      let images := sortByMtime (env.globPngs path)
      .ok (_ok (J.obj [("images", J.arr (images.map fileJson)), ("path", pathJ)]))

/-- `_handle_list_all_outputs` (lines 504–509). -/
def _handle_list_all_outputs (env : Env) : J :=
  let images := _scan_outputs env 0
  _ok (J.obj [("images", J.arr (images.map fileJson)),
              ("scan_dirs", J.arr (OUTPUT_SCAN_DIRS.map J.str))])

/-- `_handle_debug_ip_paths` (lines 512–525). -/
def _handle_debug_ip_paths : J :=
  _ok (J.obj
    [("LoadFluxIPAdapter", J.obj
      [("clip_vision_field", J.arr [J.arr
         [J.str "model.safetensors",
          J.str "sigclip_vision_patch14_384.safetensors"]]),
       ("ipadatper_field", J.arr [J.arr [J.str "ip_adapter.safetensors"]])])])

/-- The `try` block of `_handle_generate` (lines 558–572): pop a stray
`client_id` from the workflow dict (aliased by `payload["workflow"]`),
build the submission request, POST it, `raise_for_status`, parse.  The
second component lists the request bodies POSTed to `/prompt`; a POST
that was issued stays in the list even when a later step raises. -/
def generateTry (env : Env) (payload workflow client_id : J) :
    Except String (J × J) × List J :=
  let workflow1 :=
    match workflow with
    | J.obj kvs =>
      if hasKey workflow "client_id" then
        J.obj (kvs.filter (fun kv => kv.1 ≠ "client_id"))
      else workflow
    | _ => workflow
  let reqE : Except String J :=
    if hasKey payload "workflow" then
      .ok (J.obj [("client_id", client_id), ("prompt", workflow1)])
    else if hasKey payload "prompt" then
      .ok (J.obj [("client_id", client_id), ("prompt", pyGet payload "prompt")])
    else .error "Missing workflow or prompt in input payload"
  match reqE with
  | .error e => (.error e, [])
  | .ok req =>
    match env.httpPost "/prompt" req with
    | .error e => (.error e, [req])
    | .ok resp =>
      match raiseForStatus resp with
      | .error e => (.error e, [req])
      | .ok _ =>
        match resp.jsonBody with
        | .error e => (.error e, [req])
        | .ok prompt_response =>
          (.ok (pyGet prompt_response "prompt_id", prompt_response), [req])

/-- `_handle_generate` (lines 528–603).  The `float(...)` conversions
(lines 546–547) sit outside any `try` and may raise to the dispatcher;
after submission the handler waits for new outputs and returns a success
envelope whether or not any were found. -/
def _handle_generate (env : Env) (body : J) : Except String J × List J :=
  let payload := pyOr (pyGet body "payload") (J.obj [])
  let workflow := pyGet payload "workflow"
  let client_id := pyGetD payload "client_id" (J.str "imagineworlds")
  if !jTruthy workflow then
    (.ok (_fail "generate requires payload.workflow"), [])
  else
    match pyFloat (pyOr (pyGet payload "wait_seconds") (J.num 40)) with
    | .error e => (.error e, [])
    | .ok wait_seconds =>
      match pyFloat (pyOr (pyGet payload "poll_interval") (J.num 4)) with
      | .error e => (.error e, [])
      | .ok poll_interval =>
        match env.ensureReady with
        | .error e => (.ok (_fail ("generate preflight failed: " ++ e)), [])
        | .ok _ =>
          let before_map := toMtimeMap (_scan_outputs env 0)
          let posts := (generateTry env payload workflow client_id).2
          match (generateTry env payload workflow client_id).1 with
          | .error e =>
            (.ok (_fail ("generate failed: " ++ e)), posts)
          | .ok pr =>
            let aw := _await_new_outputs env before_map wait_seconds poll_interval
            let latest_image : J :=
              match (sortByMtime aw.1).getLast? with
              | some f => fileJson f
              | none => J.null
            let wait_info := J.obj
              [("before_count", J.num before_map.length),
               ("after_count", J.num aw.2.length),
               ("output_scan_dirs", J.arr (OUTPUT_SCAN_DIRS.map J.str)),
               ("wait_seconds", J.num wait_seconds),
               ("poll_interval", J.num poll_interval)]
            (.ok (_ok (J.obj
              [("prompt_id", pr.1),
               ("prompt_response", pr.2),
               ("wait_info", wait_info),
               ("new_images", J.arr (aw.1.map fileJson)),
               ("latest_image", latest_image)])), posts)

/-! ## The dispatcher (`handler`, lines 610–659) -/

/-- Python `action == "<literal>"`: false for every non-string value. -/
def jIsStr (j : J) (s : String) : Bool :=
  match j with
  | J.str t => t == s
  | _ => false

/-- The `try` block of `handler` (lines 631–656): match the action string
and run the selected action handler.  The second component is the list of
filesystem writes performed (from `upload_input_url`). -/
def dispatchAction (env : Env) (action body : J) : Except String J × List String :=
  if jIsStr action "ping" then (.ok _handle_ping, [])
  else if jIsStr action "about" then (.ok _handle_about, [])
  else if jIsStr action "preflight" then (.ok (_handle_preflight env), [])
  else if jIsStr action "upload_input_url" then
    _handle_upload_input_url env body
  else if jIsStr action "dump_comfy_log" then
    (_handle_dump_comfy_log env body, [])
  else if jIsStr action "comfy_get" then (.ok (_handle_comfy_get env body), [])
  else if jIsStr action "history" then (.ok (_handle_history env body), [])
  else if jIsStr action "list_outputs" then (_handle_list_outputs env body, [])
  else if jIsStr action "list_all_outputs" then
    (.ok (_handle_list_all_outputs env), [])
  else if jIsStr action "debug_ip_paths" then (.ok _handle_debug_ip_paths, [])
  else if jIsStr action "generate" then
    ((_handle_generate env body).1, [])
  else (.ok (_fail ("unknown action: " ++ jText action)), [])

/-- `handler` (lines 610–659).  Lines 622–629 run before the `try`: a
truthy non-dict `input` makes `inp.get(...)` raise out of the handler
(the `.error` case); everything inside the `try` is converted to a
failure envelope by the `except` at lines 657–659. -/
def handler (env : Env) (event : J) : Except String J × List String :=
  let ev := if jTruthy event then event else J.obj []
  match dictGet ev "input" with
  | .error e => (.error e, [])
  | .ok inp0 =>
    let inp := if jTruthy inp0 then inp0 else J.obj []
    match dictGet inp "action" with
    | .error e => (.error e, [])
    | .ok action =>
      match dictGet inp "payload" with
      | .error e => (.error e, [])
      | .ok payload =>
        let body := if isObj payload then J.obj [("payload", payload)] else J.obj []
        let rw := dispatchAction env action body
        (match rw.1 with
         | .ok v => .ok v
         | .error e => .ok (_fail ("unhandled exception: " ++ e)), rw.2)

/-! ### Envelope-shape lemmas, one per action handler -/

theorem preflight_envelope (env : Env) :
    isEnvelope (_handle_preflight env) = true := by
  unfold _handle_preflight
  split
  · exact envelope_ok _
  · exact envelope_fail _

theorem upload_envelope (env : Env) (body : J) (j : J)
    (h : (_handle_upload_input_url env body).1 = .ok j) :
    isEnvelope j = true := by
  unfold _handle_upload_input_url at h
  dsimp only at h
  split at h
  · cases h; exact envelope_fail _
  · split at h
    · exact absurd h (by simp)
    · split at h
      · cases h; exact envelope_ok _
      · cases h; exact envelope_fail _

theorem dump_envelope (env : Env) (body : J) (j : J)
    (h : _handle_dump_comfy_log env body = .ok j) :
    isEnvelope j = true := by
  unfold _handle_dump_comfy_log at h
  dsimp only at h
  split at h
  · exact absurd h (by simp)
  · cases h; exact envelope_ok _

theorem comfy_get_envelope (env : Env) (body : J) :
    isEnvelope (_handle_comfy_get env body) = true := by
  unfold _handle_comfy_get
  dsimp only
  split
  · exact envelope_fail _
  · split
    · exact envelope_fail _
    · exact envelope_ok _

theorem historyTry_envelope (env : Env) (prompt_id : J) (j : J)
    (h : historyTry env prompt_id = .ok j) : isEnvelope j = true := by
  unfold historyTry at h
  dsimp only at h
  split at h
  · exact absurd h (by simp)
  · split at h
    · rename_i r hr
      split at hr
      · exact absurd hr (by simp)
      · split at hr
        · split at hr
          · cases hr; cases h; exact envelope_ok _
          · cases hr; cases h; exact envelope_ok _
        · exact absurd hr (by simp)
    · split at h
      · exact absurd h (by simp)
      · split at h
        · cases h; exact envelope_fail _
        · split at h
          · cases h; exact envelope_ok _
          · cases h; exact envelope_ok _

theorem history_envelope (env : Env) (body : J) :
    isEnvelope (_handle_history env body) = true := by
  unfold _handle_history
  dsimp only
  split
  · exact envelope_fail _
  · split
    · rename_i r hr
      exact historyTry_envelope env _ r hr
    · exact envelope_fail _

theorem list_outputs_envelope (env : Env) (body : J) (j : J)
    (h : _handle_list_outputs env body = .ok j) : isEnvelope j = true := by
  unfold _handle_list_outputs at h
  dsimp only at h
  split at h
  · exact absurd h (by simp)
  · split at h
    · cases h; exact envelope_ok _
    · cases h; exact envelope_ok _

theorem generate_envelope (env : Env) (body : J) (j : J)
    (h : (_handle_generate env body).1 = .ok j) : isEnvelope j = true := by
  unfold _handle_generate at h
  dsimp only at h
  split at h
  · cases h; exact envelope_fail _
  · split at h
    · exact absurd h (by simp)
    · split at h
      · exact absurd h (by simp)
      · split at h
        · cases h; exact envelope_fail _
        · split at h
          · cases h; exact envelope_fail _
          · cases h; exact envelope_ok _

theorem dispatch_envelope (env : Env) (action body : J) (j : J)
    (h : (dispatchAction env action body).1 = .ok j) : isEnvelope j = true := by
  unfold dispatchAction at h
  by_cases h1 : jIsStr action "ping" = true
  · rw [if_pos h1] at h; cases h; exact envelope_ok _
  · rw [if_neg h1] at h
    by_cases h2 : jIsStr action "about" = true
    · rw [if_pos h2] at h; cases h; exact envelope_ok _
    · rw [if_neg h2] at h
      by_cases h3 : jIsStr action "preflight" = true
      · rw [if_pos h3] at h; cases h; exact preflight_envelope env
      · rw [if_neg h3] at h
        by_cases h4 : jIsStr action "upload_input_url" = true
        · rw [if_pos h4] at h; exact upload_envelope env body j h
        · rw [if_neg h4] at h
          by_cases h5 : jIsStr action "dump_comfy_log" = true
          · rw [if_pos h5] at h; exact dump_envelope env body j h
          · rw [if_neg h5] at h
            by_cases h6 : jIsStr action "comfy_get" = true
            · rw [if_pos h6] at h; cases h; exact comfy_get_envelope env body
            · rw [if_neg h6] at h
              by_cases h7 : jIsStr action "history" = true
              · rw [if_pos h7] at h; cases h; exact history_envelope env body
              · rw [if_neg h7] at h
                by_cases h8 : jIsStr action "list_outputs" = true
                · rw [if_pos h8] at h; exact list_outputs_envelope env body j h
                · rw [if_neg h8] at h
                  by_cases h9 : jIsStr action "list_all_outputs" = true
                  · rw [if_pos h9] at h; cases h
                    unfold _handle_list_all_outputs
                    exact envelope_ok _
                  · rw [if_neg h9] at h
                    by_cases h10 : jIsStr action "debug_ip_paths" = true
                    · rw [if_pos h10] at h; cases h; exact envelope_ok _
                    · rw [if_neg h10] at h
                      by_cases h11 : jIsStr action "generate" = true
                      · rw [if_pos h11] at h
                        exact generate_envelope env body j h
                      · rw [if_neg h11] at h
                        cases h; exact envelope_fail _

theorem handler_last (env : Env) (action body : J) :
    ∃ j, (match (dispatchAction env action body).1 with
          | Except.ok v => (Except.ok v : Except String J)
          | Except.error e =>
              Except.ok (_fail ("unhandled exception: " ++ e))) = Except.ok j
      ∧ isEnvelope j = true := by
  rcases hd : (dispatchAction env action body).1 with e | v
  · exact ⟨_, rfl, envelope_fail _⟩
  · exact ⟨v, rfl, dispatch_envelope env action body v hd⟩

/-- C1: for every Job Event whose `input` field is a JSON object (or
absent/null), `handler` raises no exception — it returns an envelope
carrying a boolean `ok` that never has both a `data` and an `error`
member, on every code path of every action. -/
theorem handler_envelope (env : Env) (event : J)
    (hev : isObj event = true)
    (hinp : pyGet event "input" = J.null ∨ isObj (pyGet event "input") = true) :
    ∃ j ws, handler env event = (Except.ok j, ws) ∧ isEnvelope j = true := by
  cases event with
  | null => simp [isObj] at hev
  | bool b => simp [isObj] at hev
  | num n => simp [isObj] at hev
  | str s => simp [isObj] at hev
  | arr l => simp [isObj] at hev
  | obj kvs =>
    have hev2 : (if jTruthy (J.obj kvs) then J.obj kvs else J.obj []) = J.obj kvs := by
      cases kvs with
      | nil => rfl
      | cons a t => rfl
    unfold handler
    rw [hev2]
    dsimp only [dictGet]
    rcases hinp with hnull | hobj0
    · rw [hnull]
      have hred : (if jTruthy J.null then J.null else J.obj []) = J.obj [] := rfl
      rw [hred]
      dsimp only
      obtain ⟨j, hj, henv⟩ := handler_last env (pyGet (J.obj []) "action")
        (if isObj (pyGet (J.obj []) "payload") then
           J.obj [("payload", pyGet (J.obj []) "payload")] else J.obj [])
      refine ⟨j, (dispatchAction env (pyGet (J.obj []) "action")
        (if isObj (pyGet (J.obj []) "payload") then
           J.obj [("payload", pyGet (J.obj []) "payload")] else J.obj [])).2, ?_, henv⟩
      rw [hj]
    · cases hpg : pyGet (J.obj kvs) "input" with
      | obj kvs2 =>
        by_cases ht : jTruthy (J.obj kvs2) = true
        · rw [if_pos ht]
          dsimp only
          obtain ⟨j, hj, henv⟩ := handler_last env (pyGet (J.obj kvs2) "action")
            (if isObj (pyGet (J.obj kvs2) "payload") then
               J.obj [("payload", pyGet (J.obj kvs2) "payload")] else J.obj [])
          refine ⟨j, (dispatchAction env (pyGet (J.obj kvs2) "action")
            (if isObj (pyGet (J.obj kvs2) "payload") then
               J.obj [("payload", pyGet (J.obj kvs2) "payload")] else J.obj [])).2,
            ?_, henv⟩
          rw [hj]
        · rw [if_neg ht]
          dsimp only
          obtain ⟨j, hj, henv⟩ := handler_last env (pyGet (J.obj []) "action")
            (if isObj (pyGet (J.obj []) "payload") then
               J.obj [("payload", pyGet (J.obj []) "payload")] else J.obj [])
          refine ⟨j, (dispatchAction env (pyGet (J.obj []) "action")
            (if isObj (pyGet (J.obj []) "payload") then
               J.obj [("payload", pyGet (J.obj []) "payload")] else J.obj [])).2,
            ?_, henv⟩
          rw [hj]
      | null => rw [hpg] at hobj0; simp [isObj] at hobj0
      | bool b => rw [hpg] at hobj0; simp [isObj] at hobj0
      | num n => rw [hpg] at hobj0; simp [isObj] at hobj0
      | str s => rw [hpg] at hobj0; simp [isObj] at hobj0
      | arr l => rw [hpg] at hobj0; simp [isObj] at hobj0

/-- A trivial environment for witnesses: the inference server is
unreachable and the filesystem is empty. -/
def envNull : Env :=
  { ensureReady := .ok ()
    httpGet := fun _ => .error "connection refused"
    httpPost := fun _ _ => .error "connection refused"
    download := fun _ => .error "connection refused"
    writeBytes := fun _ => .ok ()
    tailPrimary := ""
    altLog := none
    dirExists := fun _ => false
    globPngs := fun _ => []
    scanSeq := fun _ => [] }

/-- Witness for `handler_envelope`: a `ping` event. -/
theorem handler_envelope_witness :
    ∃ j ws,
      handler envNull (J.obj [("input", J.obj [("action", J.str "ping")])])
        = (Except.ok j, ws) ∧ isEnvelope j = true :=
  handler_envelope envNull (J.obj [("input", J.obj [("action", J.str "ping")])])
    rfl (Or.inr rfl)

/-! ### Claims C10, C3 -/

/-- C10: when the resolved `list_outputs` directory does not exist,
the handler returns a success envelope with an empty image list and the
requested path, raising nothing. -/
theorem list_outputs_missing_dir (env : Env) (body : J) (s : String)
    (hpath : pyOr (pyGet (pyOr (pyGet body "payload") (J.obj [])) "path")
        (J.str OUTPUT_DIR) = J.str s)
    (hdir : env.dirExists s = false) :
    _handle_list_outputs env body
      = Except.ok (_ok (J.obj [("images", J.arr []), ("path", J.str s)])) := by
  unfold _handle_list_outputs
  dsimp only
  rw [hpath]
  dsimp only [asPathStr]
  simp [hdir]

/-- Witness for `list_outputs_missing_dir`: the default output dir on an
empty filesystem. -/
theorem list_outputs_missing_dir_witness :
    _handle_list_outputs envNull (J.obj [])
      = Except.ok (_ok (J.obj [("images", J.arr []), ("path", J.str OUTPUT_DIR)])) :=
  list_outputs_missing_dir envNull (J.obj []) OUTPUT_DIR rfl rfl

/-- An environment whose download and write both succeed. -/
def envUpload : Env :=
  { envNull with
    download := fun _ => .ok
      { respOk := true, statusCode := 200, contentType := "image/png",
        jsonBody := .error "not json", textBody := "PNGDATA" } }

/-- The upload request of claim C3: a path-traversal filename. -/
def uploadEscapeBody : J :=
  J.obj [("payload", J.obj
    [("url", J.str "http://example.com/a.png"),
     ("filename", J.str "../../etc/passwd")])]

/-- C3: `_handle_upload_input_url` performs no containment check — the
traversal filename `../../etc/passwd` is written at
`INPUT_DIR/../../etc/passwd`, which resolves outside the input root, and
the handler reports success instead of rejecting. -/
theorem upload_escape_unchecked :
    (_handle_upload_input_url envUpload uploadEscapeBody).2
        = ["/runpod-volume/ComfyUI/input/../../etc/passwd"] ∧
    withinRoot INPUT_DIR "/runpod-volume/ComfyUI/input/../../etc/passwd" = false ∧
    (∃ j, (_handle_upload_input_url envUpload uploadEscapeBody).1 = Except.ok j ∧
      j.get? "ok" = some (J.bool true)) :=
  ⟨rfl, by decide, ⟨_, rfl, rfl⟩⟩

/-! ### Claims C7, C2 -/

theorem generateTry_posts (env : Env) (payload workflow client_id : J) (req : J)
    (h : req ∈ (generateTry env payload workflow client_id).2) :
    req.get? "client_id" = some client_id := by
  unfold generateTry at h
  dsimp only at h
  split at h
  · simp at h
  · rename_i req0 heq
    have hr : req = req0 := by
      split at h
      · simpa using h
      · split at h
        · simpa using h
        · split at h
          · simpa using h
          · simpa using h
    subst hr
    split at heq
    · cases heq; rfl
    · split at heq
      · cases heq; rfl
      · cases heq

theorem generateTry_ok (env : Env) (payload workflow client_id : J)
    (rsp : RespModel) (prj : J)
    (hwfkey : hasKey payload "workflow" = true)
    (hpost : ∀ q, env.httpPost "/prompt" q = Except.ok rsp)
    (hrsp : rsp.respOk = true) (hjson : rsp.jsonBody = Except.ok prj) :
    (generateTry env payload workflow client_id).1
      = Except.ok (pyGet prj "prompt_id", prj) := by
  unfold generateTry
  dsimp only
  rw [if_pos hwfkey]
  dsimp only
  rw [hpost]
  dsimp only
  unfold raiseForStatus
  rw [if_pos hrsp]
  dsimp only
  rw [hjson]

theorem awaitAux_empty (env : Env) (before : List (String × Int))
    (h : ∀ k, newAgainst before (_scan_outputs env k) = []) :
    ∀ fuel k, awaitAux env before fuel k
      = ([], toMtimeMap (_scan_outputs env (k + fuel))) := by
  intro fuel
  induction fuel with
  | zero =>
    intro k
    unfold awaitAux
    simp [h k]
  | succ f ih =>
    intro k
    unfold awaitAux
    simp only [h k, List.isEmpty_nil, if_true]
    rw [ih (k + 1)]
    have hk : k + 1 + f = k + (f + 1) := by omega
    rw [hk]

/-- If `payload.get("workflow")` is truthy, the key is present. -/
theorem truthy_get_hasKey (j : J) (k : String)
    (h : jTruthy (pyGet j k) = true) : hasKey j k = true := by
  unfold pyGet at h
  unfold hasKey
  cases hg : j.get? k with
  | none => rw [hg] at h; simp [jTruthy] at h
  | some v => simp

/-- C7 (amended): every request body `generate` POSTs to `/prompt`
carries as `client_id` exactly `payload.get("client_id", "imagineworlds")`
— the caller-supplied value when present, the fixed constant
`"imagineworlds"` otherwise; so distinct invocations without an explicit
identifier share the same identifier rather than getting fresh ones. -/
theorem generate_client_id_amended (env : Env) (body : J) (req : J)
    (h : req ∈ (_handle_generate env body).2) :
    req.get? "client_id"
      = some (pyGetD (pyOr (pyGet body "payload") (J.obj [])) "client_id"
          (J.str "imagineworlds")) := by
  unfold _handle_generate at h
  dsimp only at h
  split at h
  · simp at h
  · split at h
    · simp at h
    · split at h
      · simp at h
      · split at h
        · simp at h
        · split at h
          · exact generateTry_posts env _ _ _ req h
          · exact generateTry_posts env _ _ _ req h

/-- A successful `/prompt` submission response. -/
def rspOkJson : RespModel :=
  { respOk := true, statusCode := 200, contentType := "application/json",
    jsonBody := .ok (J.obj [("prompt_id", J.str "p1")]), textBody := "" }

/-- An environment where submission succeeds and the output directories
stay empty forever. -/
def envGen : Env := { envNull with httpPost := fun _ _ => .ok rspOkJson }

/-- A minimal workflow graph. -/
def wfGraph : J :=
  J.obj [("1", J.obj [("class_type", J.str "SaveImage"), ("inputs", J.obj [])])]

/-- A generate body without `client_id`. -/
def genBody1 : J := J.obj [("payload", J.obj [("workflow", wfGraph)])]

/-- A second, different generate body without `client_id`. -/
def genBody2 : J :=
  J.obj [("payload", J.obj [("workflow",
    J.obj [("2", J.obj [("class_type", J.str "SaveImage"),
                        ("inputs", J.obj [])])])])]

/-- C7 counterexample: two distinct `generate` invocations (different
workflow graphs, neither supplying `client_id`) both submit with
`client_id = "imagineworlds"` — the identifier is a fixed default, not a
fresh unique value per call. -/
theorem generate_client_id_cex :
    hasKey (pyGet genBody1 "payload") "client_id" = false ∧
    hasKey (pyGet genBody2 "payload") "client_id" = false ∧
    hasKey (pyGet (pyGet genBody1 "payload") "workflow") "1" = true ∧
    hasKey (pyGet (pyGet genBody2 "payload") "workflow") "1" = false ∧
    ((_handle_generate envGen genBody1).2.map (fun r => r.get? "client_id"))
      = [some (J.str "imagineworlds")] ∧
    ((_handle_generate envGen genBody2).2.map (fun r => r.get? "client_id"))
      = [some (J.str "imagineworlds")] :=
  ⟨rfl, rfl, rfl, rfl, rfl, rfl⟩

/-- The request `generate` builds for `genBody1`. -/
def wfReq : J := J.obj [("client_id", J.str "imagineworlds"), ("prompt", wfGraph)]

/-- Witness for `generate_client_id_amended`. -/
theorem generate_client_id_amended_witness :
    wfReq.get? "client_id" = some (J.str "imagineworlds") :=
  generate_client_id_amended envGen genBody1 wfReq
    (by rw [show (_handle_generate envGen genBody1).2 = [wfReq] from rfl]
        exact List.mem_singleton.mpr rfl)

/-- C2 counterexample: in an invocation where the await-new-outputs poll
returns an empty new-image list (no new file ever appears), `generate`
returns a SUCCESS envelope (`ok: true`) whose data has an empty
`new_images` list and no log tail — not the `ok: false`-with-log-tail
envelope the claim describes. -/
theorem generate_timeout_cex :
    ∃ d, (_handle_generate envGen genBody1).1 = Except.ok d ∧
      d.get? "ok" = some (J.bool true) ∧
      (pyGet d "data").get? "log_tail" = none ∧
      (pyGet d "data").get? "new_images" = some (J.arr []) :=
  ⟨_, rfl, rfl, rfl, rfl⟩

/-- C2 (amended): when no new output file appears within the wait budget,
`generate` raises no exception and returns a SUCCESS envelope (`ok:
true`) whose data carries an empty `new_images` list, a null
`latest_image`, and a `wait_info` with the before/after output counts;
no log tail is attached — the data object has no `log_tail` member and
its keys are exactly the five listed. -/
theorem generate_timeout_amended (env : Env) (body : J) (rsp : RespModel)
    (prj : J) (w p : Int)
    (hwf : jTruthy (pyGet (pyOr (pyGet body "payload") (J.obj [])) "workflow")
        = true)
    (hw : pyFloat (pyOr (pyGet (pyOr (pyGet body "payload") (J.obj []))
        "wait_seconds") (J.num 40)) = Except.ok w)
    (hp : pyFloat (pyOr (pyGet (pyOr (pyGet body "payload") (J.obj []))
        "poll_interval") (J.num 4)) = Except.ok p)
    (hready : env.ensureReady = Except.ok ())
    (hpost : ∀ q, env.httpPost "/prompt" q = Except.ok rsp)
    (hrsp : rsp.respOk = true) (hjson : rsp.jsonBody = Except.ok prj)
    (hempty : ∀ k, newAgainst (toMtimeMap (_scan_outputs env 0))
        (_scan_outputs env k) = []) :
    ∃ d, (_handle_generate env body).1 = Except.ok (_ok d) ∧
      d.get? "new_images" = some (J.arr []) ∧
      d.get? "latest_image" = some J.null ∧
      d.get? "log_tail" = none ∧
      jKeys d = ["prompt_id", "prompt_response", "wait_info", "new_images",
                 "latest_image"] ∧
      ∃ wi, d.get? "wait_info" = some wi ∧
        wi.get? "before_count"
          = some (J.num (toMtimeMap (_scan_outputs env 0)).length) ∧
        wi.get? "after_count"
          = some (J.num (toMtimeMap (_scan_outputs env (1 + numPolls w p))).length) := by
  unfold _handle_generate
  dsimp only
  rw [if_neg (by simp [hwf])]
  rw [hw]
  dsimp only
  rw [hp]
  dsimp only
  rw [hready]
  dsimp only
  rw [generateTry_ok env _ _ _ rsp prj (truthy_get_hasKey _ _ hwf) hpost hrsp hjson]
  dsimp only
  rw [show _await_new_outputs env (toMtimeMap (_scan_outputs env 0)) w p
      = ([], toMtimeMap (_scan_outputs env (1 + numPolls w p))) from by
    unfold _await_new_outputs
    exact awaitAux_empty env _ hempty (numPolls w p) 1]
  exact ⟨_, rfl, rfl, rfl, rfl, rfl, _, rfl, rfl, rfl⟩

/-- Witness for `generate_timeout_amended`. -/
theorem generate_timeout_amended_witness :
    ∃ d, (_handle_generate envGen genBody1).1 = Except.ok (_ok d) ∧
      d.get? "new_images" = some (J.arr []) ∧
      d.get? "latest_image" = some J.null ∧
      d.get? "log_tail" = none ∧
      jKeys d = ["prompt_id", "prompt_response", "wait_info", "new_images",
                 "latest_image"] ∧
      ∃ wi, d.get? "wait_info" = some wi ∧
        wi.get? "before_count"
          = some (J.num (toMtimeMap (_scan_outputs envGen 0)).length) ∧
        wi.get? "after_count"
          = some (J.num (toMtimeMap (_scan_outputs envGen (1 + numPolls 40 4))).length) :=
  generate_timeout_amended envGen genBody1 rspOkJson
    (J.obj [("prompt_id", J.str "p1")]) 40 4 rfl rfl rfl rfl (fun _ => rfl) rfl
    rfl (fun _ => rfl)
